import Mathlib

/-
  Verification development for the DashCash pinless-ATM simulator
  (src/simulator.py). The Python handlers are embedded shallowly:
  the SQLite users table becomes an association list of rows, the
  enrolled_faces directory becomes a list of file names, and the
  external collaborators (PIL image save, DeepFace face detection,
  SQLite insert success) become boolean oracles passed to the handler.
-/

namespace DashCash

/-- A row of the users table created by init_db (src/simulator.py lines
28 to 35): account_no TEXT PRIMARY KEY, name TEXT NOT NULL, balance REAL
NOT NULL, enrolled_face_path TEXT UNIQUE NOT NULL. The balance column is
modelled here as an exact rational; the binary64 rounding performed by
the REAL column and Python float arithmetic is modelled separately by
the function fl below. -/
structure UserRow where
  account_no : String
  name : String
  balance : ℚ
  enrolled_face_path : String
deriving DecidableEq

/-- The SELECT balance FROM users WHERE account_no=? query followed by
fetchone (simulator.py lines 119 to 120): the first row with the given
account number, if any, projected to its balance. -/
def lookup_balance (db : List UserRow) (account_no : String) : Option ℚ :=
  (db.find? (fun r => r.account_no == account_no)).map (fun r => r.balance)

/-- The UPDATE users SET balance=? WHERE account_no=? statement
(simulator.py line 134): every row with the given account number gets the
new balance; all other rows are untouched. -/
def set_balance (db : List UserRow) (account_no : String) (b : ℚ) : List UserRow :=
  db.map (fun r => if r.account_no == account_no then
    { r with balance := b } else r)

/-- Outcome of update_balance: the source returns a pair of a success
flag and a message; on success the message carries the new balance, which
we keep as data. The pyError constructor records an uncaught Python
exception escaping the handler (there is no try/except around the
fetchone subscript in the source). -/
inductive TxnResult where
  | ok (new_balance : ℚ)
  | fail (msg : String)
  | pyError (msg : String)
deriving DecidableEq

/-- update_balance (simulator.py lines 113 to 140). Control flow follows
the source exactly: fetch the balance of the account (fetchone()[0]
raises TypeError when the account is absent, since fetchone returns
None); for Withdrawal, fail with Insufficient funds when
current_balance < amount, otherwise subtract; for Deposit add; any other
transaction type fails before the UPDATE is reached. The successful
branches perform the single UPDATE of line 134. The handler performs no
positivity check on amount. -/
def update_balance (db : List UserRow) (account_no : String) (amount : ℚ)
    (transaction_type : String) : TxnResult × List UserRow :=
  match lookup_balance db account_no with
  | none =>
      (TxnResult.pyError "TypeError: NoneType object is not subscriptable", db)
  | some current_balance =>
      if transaction_type = "Withdrawal" then
        if current_balance < amount then
          (TxnResult.fail "Insufficient funds.", db)
        else
          (TxnResult.ok (current_balance - amount),
           set_balance db account_no (current_balance - amount))
      else if transaction_type = "Deposit" then
        (TxnResult.ok (current_balance + amount),
         set_balance db account_no (current_balance + amount))
      else
        (TxnResult.fail "Invalid transaction type.", db)

/-- Sample users table with a single account of balance 100.00, used as a
concrete store in witnesses and counterexamples. -/
def sample_db : List UserRow :=
  [⟨"1001", "Alice", 100, "enrolled_faces/1001.jpg"⟩]

/-- C2: for every existing account and every withdrawal amount strictly
greater than the stored balance, update_balance returns the insufficient
funds failure and the stored table is unchanged (no partial debit). -/
theorem withdrawal_insufficient_funds (db : List UserRow) (a : String)
    (b amount : ℚ) (hb : lookup_balance db a = some b) (hlt : b < amount) :
    update_balance db a amount "Withdrawal" =
      (TxnResult.fail "Insufficient funds.", db) := by
  unfold update_balance
  rw [hb]
  simp [hlt]

/-- C2 witness: with balance 100.00, withdrawing 150.00 errors and the
balance is still 100.00. -/
theorem withdrawal_insufficient_funds_witness :
    lookup_balance sample_db "1001" = some 100 ∧ (100 : ℚ) < 150 ∧
    update_balance sample_db "1001" 150 "Withdrawal" =
      (TxnResult.fail "Insufficient funds.", sample_db) :=
  ⟨by simp [lookup_balance, sample_db], by norm_num,
    withdrawal_insufficient_funds sample_db "1001" 100 150
      (by simp [lookup_balance, sample_db]) (by norm_num)⟩

/-- C5: applying a transaction to an account number that is not in the
users table does not return an UnknownAccount error: the fetchone()[0]
subscript raises an uncaught TypeError (the handler crashes). The stored
table is unchanged, since the crash happens before any UPDATE. -/
theorem unknown_account_crash :
    update_balance [] "9999" 50 "Deposit" =
      (TxnResult.pyError "TypeError: NoneType object is not subscriptable", []) := by
  decide

/-- C6: update_balance performs no positivity check on the amount: a
Deposit of -50.00 against a balance of 100.00 is accepted and debits the
account to 50.00, instead of returning an InvalidAmount error with the
balance unchanged. -/
theorem negative_deposit_goes_through :
    update_balance sample_db "1001" (-50) "Deposit" =
      (TxnResult.ok 50, [⟨"1001", "Alice", 50, "enrolled_faces/1001.jpg"⟩]) := by
  simp [update_balance, lookup_balance, set_balance, sample_db]
  norm_num

/-- C10: for every existing account, a transaction type that is neither
Withdrawal nor Deposit returns the invalid transaction type failure and
leaves the stored table unchanged. -/
theorem invalid_transaction_type (db : List UserRow) (a : String)
    (b amount : ℚ) (ty : String) (hb : lookup_balance db a = some b)
    (h1 : ty ≠ "Withdrawal") (h2 : ty ≠ "Deposit") :
    update_balance db a amount ty =
      (TxnResult.fail "Invalid transaction type.", db) := by
  unfold update_balance
  rw [hb]
  simp [h1, h2]

/-- C10 witness: a Transfer request against the sample account fails and
leaves the table unchanged. -/
theorem invalid_transaction_type_witness :
    lookup_balance sample_db "1001" = some 100 ∧
    update_balance sample_db "1001" 5 "Transfer" =
      (TxnResult.fail "Invalid transaction type.", sample_db) :=
  ⟨by simp [lookup_balance, sample_db],
    invalid_transaction_type sample_db "1001" 100 5 "Transfer"
      (by simp [lookup_balance, sample_db]) (by decide) (by decide)⟩

/-- Saving a file into a directory (PIL image.save, simulator.py line 80):
the directory afterwards contains the file exactly once, any previous file
of the same name having been overwritten; all other files are untouched. -/
def save_file (files : List String) (f : String) : List String :=
  f :: files.filter (fun g => g != f)

/-- os.remove of a file (simulator.py lines 91, 96, 109, 260): the
directory afterwards no longer contains the file. -/
def remove_file (files : List String) (f : String) : List String :=
  files.filter (fun g => g != f)

/-- The path under which enroll_user saves the sample image
(simulator.py lines 74 to 75): ENROLLMENT_DIR joined with account_no.jpg. -/
def file_path_of (account_no : String) : String :=
  "enrolled_faces/" ++ account_no ++ ".jpg"

/-- Outcomes of the external calls made by enroll_user, which the
embedding cannot run: whether PIL saves the image without an exception
(line 80), whether DeepFace.extract_faces finds a face (line 88), and
whether the SQLite INSERT succeeds (line 102). -/
structure ImageOracle where
  save_ok : Bool
  face_detected : Bool
  db_insert_ok : Bool
deriving DecidableEq

/-- The persistent state touched by enrollment: the users table and the
file names present in the enrolled_faces directory. -/
structure EnrollState where
  db : List UserRow
  files : List String
deriving DecidableEq

/-- enroll_user (simulator.py lines 60 to 111). Control flow follows the
source: (1) if the account number already exists in the users table,
return the duplicate error with nothing written; (2) save the image to
enrolled_faces/account_no.jpg (on a save exception return the save error
with nothing written); (3) run face detection on the saved file; if no
face is detected, os.remove the file and return the no-face error;
(4) INSERT the row; on an insert exception os.remove the file and return
the database error; otherwise commit and report success. -/
def enroll_user (s : EnrollState) (img : ImageOracle) (account_no nm : String)
    (initial_deposit : ℚ) : (Bool × String) × EnrollState :=
  if (s.db.find? (fun r => r.account_no == account_no)).isSome then
    ((false, "Error: Account number already exists."), s)
  else
    let file_path := file_path_of account_no
    if img.save_ok = false then
      ((false, "Error saving image file."), s)
    else
      let s1 : EnrollState := { s with files := save_file s.files file_path }
      if img.face_detected = false then
        ((false, "Error: No clear face detected in the image. Enrollment failed."),
         { s1 with files := remove_file s1.files file_path })
      else if img.db_insert_ok = false then
        ((false, "Database insertion error."),
         { s1 with files := remove_file s1.files file_path })
      else
        ((true, "User successfully enrolled and account created!"),
         { db := s1.db ++ [⟨account_no, nm, initial_deposit, file_path⟩],
           files := s1.files })

/-- Removing a file just after saving it leaves exactly the files that
remain when the file is removed from the original directory. -/
theorem remove_save (files : List String) (f : String) :
    remove_file (save_file files f) f = remove_file files f := by
  simp [remove_file, save_file, List.filter_filter]

/-- C3: when the account number is fresh, the image saves, and no face is
detected in the sample, enroll_user fails with the no-face error and
leaves no residue: the users table is unchanged, no row for the account
exists, and the image file is not present afterwards. -/
theorem no_face_leaves_no_residue (s : EnrollState) (img : ImageOracle)
    (account_no nm : String) (initial_deposit : ℚ)
    (hdup : s.db.find? (fun r => r.account_no == account_no) = none)
    (hsave : img.save_ok = true) (hface : img.face_detected = false) :
    (enroll_user s img account_no nm initial_deposit).1 =
      (false, "Error: No clear face detected in the image. Enrollment failed.")
    ∧ (enroll_user s img account_no nm initial_deposit).2.db = s.db
    ∧ (enroll_user s img account_no nm initial_deposit).2.db.find?
        (fun r => r.account_no == account_no) = none
    ∧ file_path_of account_no ∉
        (enroll_user s img account_no nm initial_deposit).2.files := by
  unfold enroll_user
  rw [hdup]
  simp [hsave, hface, hdup, remove_save, remove_file, List.mem_filter]

/-- C3 witness: enrolling account 1001 into the empty stores with a
faceless sample fails and leaves the empty stores untouched. -/
theorem no_face_leaves_no_residue_witness :
    (([] : List UserRow).find? (fun r => r.account_no == "1001") = none)
    ∧ (enroll_user ⟨[], []⟩ ⟨true, false, true⟩ "1001" "Alice" 100).1 =
        (false, "Error: No clear face detected in the image. Enrollment failed.")
    ∧ (enroll_user ⟨[], []⟩ ⟨true, false, true⟩ "1001" "Alice" 100).2.db = []
    ∧ file_path_of "1001" ∉
        (enroll_user ⟨[], []⟩ ⟨true, false, true⟩ "1001" "Alice" 100).2.files := by
  refine ⟨rfl, ?_⟩
  have h := no_face_leaves_no_residue ⟨[], []⟩ ⟨true, false, true⟩ "1001" "Alice" 100
    rfl rfl rfl
  exact ⟨h.1, h.2.1, h.2.2.2⟩

/-- C8: when the account number already exists in the users table,
enroll_user returns the duplicate error and the whole state, users table
and enrolled_faces directory alike, is exactly what it was before the
call: no file is overwritten and no row is changed. -/
theorem duplicate_identity_unchanged (s : EnrollState) (img : ImageOracle)
    (account_no nm : String) (initial_deposit : ℚ)
    (hdup : (s.db.find? (fun r => r.account_no == account_no)).isSome) :
    enroll_user s img account_no nm initial_deposit =
      ((false, "Error: Account number already exists."), s) := by
  unfold enroll_user
  simp [hdup]

/-- C8 witness: enrolling account 1001 again, over a store that already
holds account 1001 and its template file, fails with the duplicate error
and leaves the store exactly as it was. -/
theorem duplicate_identity_unchanged_witness :
    (sample_db.find? (fun r => r.account_no == "1001")).isSome
    ∧ enroll_user ⟨sample_db, ["enrolled_faces/1001.jpg"]⟩ ⟨true, true, true⟩
        "1001" "Bob" 25 =
      ((false, "Error: Account number already exists."),
       ⟨sample_db, ["enrolled_faces/1001.jpg"]⟩) :=
  ⟨by simp [sample_db],
    duplicate_identity_unchanged ⟨sample_db, ["enrolled_faces/1001.jpg"]⟩
      ⟨true, true, true⟩ "1001" "Bob" 25 (by simp [sample_db])⟩

/-- One row of the DeepFace.find result frame as consumed by
show_login_view: the identity column (path of the matched enrolled file)
together with its similarity score. DeepFace returns only candidates
above its internal acceptance threshold, best first. -/
structure Candidate where
  identity : String
  score : ℚ
deriving DecidableEq

/-- The match selection of show_login_view (simulator.py lines 213 to
226): when the DeepFace result frame is nonempty, the flow takes the
identity of its first, best-scoring, row. The scores are never inspected:
there is no explicit acceptance threshold and no ambiguity-margin
comparison against the second-best row. -/
def best_match (results : List Candidate) : Option String :=
  match results with
  | [] => none
  | best :: _ => some best.identity

/-- Decision of the identity resolver as the spec describes it. -/
inductive Decision where
  | MATCH (accountNo : String) (score : ℚ)
  | NO_MATCH
  | AMBIGUOUS
deriving DecidableEq

/-- Modelled from the spec: the hardened resolver of section 4.1, which
the source does not implement. Rank candidates by similarity (the input
list is best first); accept the best candidate as MATCH only if its
score crosses the acceptance threshold and its gap to the second-best
candidate exceeds the ambiguity margin; a best score below the threshold
gives NO_MATCH; a passing score whose margin check fails gives
AMBIGUOUS. -/
def resolve_spec (threshold margin : ℚ) (results : List Candidate) : Decision :=
  match results with
  | [] => Decision.NO_MATCH
  | best :: rest =>
      if best.score < threshold then Decision.NO_MATCH
      else
        match rest with
        | [] => Decision.MATCH best.identity best.score
        | second :: _ =>
            if margin < best.score - second.score then
              Decision.MATCH best.identity best.score
            else Decision.AMBIGUOUS

/-- A probe that scores 0.95 and 0.94 against two different enrolled
templates: with acceptance threshold 0.80 and ambiguity margin 0.05 both
candidates pass the threshold and sit within the margin of each other. -/
def ambiguous_probe : List Candidate :=
  [⟨"1001.jpg", 95/100⟩, ⟨"1002.jpg", 94/100⟩]

/-- C1: on a probe whose two best enrolled candidates both pass the
acceptance threshold 0.80 and lie within the ambiguity margin 0.05 of
each other, the login flow of the source still selects the top candidate
(account 1001), whereas the resolver the claim describes returns
AMBIGUOUS and refuses to pick either. -/
theorem top_hit_taken_despite_ambiguity :
    best_match ambiguous_probe = some "1001.jpg"
    ∧ resolve_spec (8/10) (5/100) ambiguous_probe = Decision.AMBIGUOUS := by
  constructor
  · rfl
  · norm_num [resolve_spec, ambiguous_probe]

/-- The file name under which show_login_view saves the probe capture
(simulator.py line 180): it lives inside ENROLLMENT_DIR, the directory
that holds the enrolled templates. -/
def PROBE_NAME : String := "temp_auth_file.jpg"

/-- A snapshot of the two directories touched by the login flow: the
authoritative enrolled_faces directory and the temp_clean_db scratch
directory (empty when absent). -/
structure LoginFs where
  enrollment_dir : List String
  temp_db_dir : List String
deriving DecidableEq

/-- The successive file-system states of one authentication attempt
(simulator.py lines 179 to 262): starting from the enrolled templates,
(1) the probe capture is saved as temp_auth_file.jpg inside
enrolled_faces; (2) every enrolled file other than the probe is copied
into temp_clean_db, which DeepFace then searches; (3) the finally block
removes the probe file and deletes temp_clean_db. -/
def login_fs_trace (init : List String) : List LoginFs :=
  let after_save := save_file init PROBE_NAME
  let enrolled_files := after_save.filter (fun f => f != PROBE_NAME)
  [⟨init, []⟩,
   ⟨after_save, []⟩,
   ⟨after_save, enrolled_files⟩,
   ⟨remove_file after_save PROBE_NAME, []⟩]

/-- C4: in every authentication attempt the probe file is written into
the authoritative enrolled-template directory at an intermediate point of
the call, and is then merely removed again by the cleanup step, so the
final directory is the original one filtered of the probe name. This
refutes the claim that the probe is never written into the authoritative
store during the call. -/
theorem probe_enters_template_store (init : List String) :
    (∃ st ∈ login_fs_trace init, PROBE_NAME ∈ st.enrollment_dir)
    ∧ (login_fs_trace init).getLast? =
        some ⟨remove_file init PROBE_NAME, []⟩ := by
  constructor
  · exact ⟨⟨save_file init PROBE_NAME, []⟩,
      by simp [login_fs_trace], by simp [save_file]⟩
  · simp [login_fs_trace, remove_save]

/-- C4 witness: with a single enrolled template 1001.jpg, the trace of an
authentication attempt contains a state whose enrollment directory holds
the probe file. -/
theorem probe_enters_template_store_witness :
    ∃ st ∈ login_fs_trace ["1001.jpg"], PROBE_NAME ∈ st.enrollment_dir :=
  (probe_enters_template_store ["1001.jpg"]).1

/-- Every balance stored in the users table is non-negative. -/
def balances_nonneg (db : List UserRow) : Prop :=
  ∀ r ∈ db, 0 ≤ r.balance

/-- One user-driven operation of the running app. Enrollment goes through
the enrollment form, whose initial-deposit widget has min_value 10.00
(simulator.py line 274), so the handler only ever receives an initial
deposit of at least 10; a transaction goes through the transaction view,
whose amount widget has min_value 1.00 (line 317), so the handler only
ever receives an amount of at least 1. The transaction type reaching
update_balance is left arbitrary here, which only widens the set of
reachable states. -/
inductive AppStep : EnrollState → EnrollState → Prop where
  | enroll (s : EnrollState) (img : ImageOracle) (account_no nm : String)
      (initial_deposit : ℚ) (hmin : 10 ≤ initial_deposit) :
      AppStep s (enroll_user s img account_no nm initial_deposit).2
  | txn (s : EnrollState) (account_no : String) (amount : ℚ) (ty : String)
      (hmin : 1 ≤ amount) :
      AppStep s ⟨(update_balance s.db account_no amount ty).2, s.files⟩

/-- A successful balance lookup returns the balance of some stored row. -/
theorem lookup_balance_mem (db : List UserRow) (a : String) (b : ℚ)
    (hb : lookup_balance db a = some b) : ∃ r ∈ db, r.balance = b := by
  unfold lookup_balance at hb
  cases hfind : db.find? (fun r => r.account_no == a) with
  | none => rw [hfind] at hb; simp at hb
  | some r =>
      rw [hfind] at hb
      simp at hb
      exact ⟨r, List.mem_of_find?_eq_some hfind, hb⟩

/-- set_balance preserves non-negativity of the table when the new
balance is non-negative. -/
theorem balances_nonneg_set (db : List UserRow) (a : String) (b : ℚ)
    (hb : 0 ≤ b) (hinv : balances_nonneg db) :
    balances_nonneg (set_balance db a b) := by
  intro r hr
  simp [set_balance, List.mem_map] at hr
  obtain ⟨r0, hr0, hr0eq⟩ := hr
  by_cases hc : r0.account_no = a
  · rw [if_pos hc] at hr0eq
    rw [← hr0eq]
    exact hb
  · rw [if_neg hc] at hr0eq
    rw [← hr0eq]
    exact hinv r0 hr0

/-- update_balance preserves non-negativity of the table whenever the
amount is at least 1: withdrawals are guarded by the insufficient-funds
check and deposits add a positive amount. -/
theorem balances_nonneg_update (db : List UserRow) (a : String)
    (amount : ℚ) (ty : String) (hamt : 1 ≤ amount)
    (hinv : balances_nonneg db) :
    balances_nonneg (update_balance db a amount ty).2 := by
  unfold update_balance
  cases hlk : lookup_balance db a with
  | none => simpa using hinv
  | some b =>
      obtain ⟨r, hrmem, hrbal⟩ := lookup_balance_mem db a b hlk
      have hb : 0 ≤ b := hrbal ▸ hinv r hrmem
      by_cases hw : ty = "Withdrawal"
      · by_cases hlt : b < amount
        · simpa [hw, hlt] using hinv
        · have hge : 0 ≤ b - amount := by linarith [not_lt.mp hlt]
          simpa [hw, hlt] using balances_nonneg_set db a (b - amount) hge hinv
      · by_cases hd : ty = "Deposit"
        · have hge : 0 ≤ b + amount := by linarith
          simpa [hw, hd] using balances_nonneg_set db a (b + amount) hge hinv
        · simpa [hw, hd] using hinv

/-- enroll_user preserves non-negativity of the table whenever the
initial deposit is at least 10: every failure branch leaves the table
unchanged and the success branch appends a row with that deposit. -/
theorem balances_nonneg_enroll (s : EnrollState) (img : ImageOracle)
    (account_no nm : String) (initial_deposit : ℚ)
    (hmin : 10 ≤ initial_deposit) (hinv : balances_nonneg s.db) :
    balances_nonneg (enroll_user s img account_no nm initial_deposit).2.db := by
  unfold enroll_user
  by_cases hdup : (s.db.find? (fun r => r.account_no == account_no)).isSome
  · simpa [hdup] using hinv
  · by_cases hsave : img.save_ok = false
    · simpa [hdup, hsave] using hinv
    · by_cases hface : img.face_detected = false
      · simpa [hdup, hsave, hface] using hinv
      · by_cases hins : img.db_insert_ok = false
        · simpa [hdup, hsave, hface, hins] using hinv
        · simp [hdup, hsave, hface, hins]
          intro r hr
          rcases List.mem_append.mp hr with hl | hnew
          · exact hinv r hl
          · simp at hnew
            rw [hnew]
            linarith

/-- C7: every state reachable from the freshly initialized app (empty
users table, empty enrolled_faces directory) by user-driven enrollments
and transactions has only non-negative stored balances. -/
theorem reachable_balances_nonneg (s : EnrollState)
    (h : Relation.ReflTransGen AppStep ⟨[], []⟩ s) :
    balances_nonneg s.db := by
  induction h with
  | refl => intro r hr; simp at hr
  | tail _ hstep ih =>
      cases hstep with
      | enroll img account_no nm initial_deposit hmin =>
          exact balances_nonneg_enroll _ img account_no nm initial_deposit hmin ih
      | txn account_no amount ty hmin =>
          exact balances_nonneg_update _ account_no amount ty hmin ih

/-- C7 witness: the state reached from the fresh app by one successful
enrollment with initial deposit 100 has only non-negative balances. -/
theorem reachable_balances_nonneg_witness :
    balances_nonneg (enroll_user ⟨[], []⟩ ⟨true, true, true⟩ "1001" "Alice" 100).2.db :=
  reachable_balances_nonneg (enroll_user ⟨[], []⟩ ⟨true, true, true⟩ "1001" "Alice" 100).2
    (Relation.ReflTransGen.single
      (AppStep.enroll ⟨[], []⟩ ⟨true, true, true⟩ "1001" "Alice" 100 (by norm_num)))

/-- Round a rational to the nearest integer, ties to even. -/
def rne (q : ℚ) : ℤ :=
  if q - ⌊q⌋ < 1 / 2 then ⌊q⌋
  else if 1 / 2 < q - ⌊q⌋ then ⌊q⌋ + 1
  else if ⌊q⌋ % 2 = 0 then ⌊q⌋ else ⌊q⌋ + 1

/-- Binary exponent of a positive rational: the unique e with
2 ^ e ≤ q < 2 ^ (e + 1), computed from the bit lengths of numerator and
denominator. -/
def qExp (q : ℚ) : ℤ :=
  if (2 : ℚ) ^ ((Nat.log 2 q.num.natAbs : ℤ) - Nat.log 2 q.den) ≤ q then
    (Nat.log 2 q.num.natAbs : ℤ) - Nat.log 2 q.den
  else (Nat.log 2 q.num.natAbs : ℤ) - Nat.log 2 q.den - 1

/-- IEEE-754 binary64 rounding of a rational in the normal finite range:
round to the nearest multiple of the unit in the last place of a 53-bit
significand, ties to even. This is the value stored by a Python float or
a SQLite REAL for the magnitudes a balance takes. -/
def fl (q : ℚ) : ℚ :=
  if q = 0 then 0
  else if 0 < q then rne (q / 2 ^ (qExp q - 52)) * 2 ^ (qExp q - 52)
  else -(rne (-q / 2 ^ (qExp (-q) - 52)) * 2 ^ (qExp (-q) - 52))

/-- The balance arithmetic of update_balance as the running program
executes it: the users table stores balance as REAL (simulator.py line
32) and the Streamlit amount inputs are Python floats, so the sum and
difference of lines 126 and 128 are binary64 operations, that is, exact
rational arithmetic followed by fl. Control flow is that of
update_balance restricted to an existing account; only the successful
new balance is returned. -/
def update_balance_float (current_balance amount : ℚ)
    (transaction_type : String) : Option ℚ :=
  if transaction_type = "Withdrawal" then
    if current_balance < amount then none
    else some (fl (current_balance - amount))
  else if transaction_type = "Deposit" then
    some (fl (current_balance + amount))
  else none

/-- The binary64 value closest to 0.10. -/
theorem fl_tenth : fl (1 / 10) = 3602879701896397 / 2 ^ 55 := by
  have hn : ((1 : ℚ) / 10).num = 1 := by norm_num
  have hd : ((1 : ℚ) / 10).den = 10 := by norm_num
  have hl10 : Nat.log 2 10 = 3 :=
    Nat.log_eq_of_pow_le_of_lt_pow (by norm_num) (by norm_num)
  have he : qExp (1 / 10) = -4 := by
    rw [qExp, hn, hd]
    norm_num [hl10]
  unfold fl
  rw [if_neg (by norm_num), if_pos (by norm_num), he]
  rw [rne]
  norm_num

/-- The binary64 value closest to 0.20. -/
theorem fl_fifth : fl (2 / 10) = 3602879701896397 / 2 ^ 54 := by
  have hn : ((2 : ℚ) / 10).num = 1 := by norm_num
  have hd : ((2 : ℚ) / 10).den = 5 := by norm_num
  have hl5 : Nat.log 2 5 = 2 :=
    Nat.log_eq_of_pow_le_of_lt_pow (by norm_num) (by norm_num)
  have he : qExp (2 / 10) = -3 := by
    rw [qExp, hn, hd]
    norm_num [hl5]
  unfold fl
  rw [if_neg (by norm_num), if_pos (by norm_num), he]
  rw [rne]
  norm_num

/-- Adding the floats closest to 0.10 and 0.20 rounds, by a tie broken
to even, to the binary64 value 0.30000000000000004. -/
theorem fl_sum : fl (3602879701896397 / 2 ^ 55 + 3602879701896397 / 2 ^ 54) =
    1351079888211149 / 2 ^ 52 := by
  have hn : ((3602879701896397 : ℚ) / 2 ^ 55 + 3602879701896397 / 2 ^ 54).num =
      10808639105689191 := by norm_num
  have hd : ((3602879701896397 : ℚ) / 2 ^ 55 + 3602879701896397 / 2 ^ 54).den =
      36028797018963968 := by norm_num
  have hln : Nat.log 2 10808639105689191 = 53 :=
    Nat.log_eq_of_pow_le_of_lt_pow (by norm_num) (by norm_num)
  have hld : Nat.log 2 36028797018963968 = 55 :=
    Nat.log_eq_of_pow_le_of_lt_pow (by norm_num) (by norm_num)
  have he : qExp (3602879701896397 / 2 ^ 55 + 3602879701896397 / 2 ^ 54) = -2 := by
    rw [qExp, hn, hd]
    norm_num [hln, hld]
  unfold fl
  rw [if_neg (by norm_num), if_pos (by norm_num), he]
  rw [rne]
  norm_num

/-- Subtracting the float closest to 0.20 from 0.30000000000000004 is
exact in binary64 and lands one unit in the last place above the float
closest to 0.10. -/
theorem fl_diff : fl (1351079888211149 / 2 ^ 52 - 3602879701896397 / 2 ^ 54) =
    1801439850948199 / 2 ^ 54 := by
  have hn : ((1351079888211149 : ℚ) / 2 ^ 52 - 3602879701896397 / 2 ^ 54).num =
      1801439850948199 := by norm_num
  have hd : ((1351079888211149 : ℚ) / 2 ^ 52 - 3602879701896397 / 2 ^ 54).den =
      18014398509481984 := by norm_num
  have hln : Nat.log 2 1801439850948199 = 50 :=
    Nat.log_eq_of_pow_le_of_lt_pow (by norm_num) (by norm_num)
  have hld : Nat.log 2 18014398509481984 = 54 :=
    Nat.log_eq_of_pow_le_of_lt_pow (by norm_num) (by norm_num)
  have he : qExp (1351079888211149 / 2 ^ 52 - 3602879701896397 / 2 ^ 54) = -4 := by
    rw [qExp, hn, hd]
    norm_num [hln, hld]
  unfold fl
  rw [if_neg (by norm_num), if_pos (by norm_num), he]
  rw [rne]
  norm_num

/-- C9: balances are not held in fixed-point decimal: starting from the
stored balance closest to 0.10 and depositing then withdrawing the
amount closest to 0.20, the binary64 arithmetic of update_balance ends
at 0.10000000000000003, one unit in the last place away from the
original balance, so the round trip does not restore it exactly. -/
theorem deposit_withdraw_drift :
    (update_balance_float (fl (1 / 10)) (fl (2 / 10)) "Deposit").bind
        (fun b1 => update_balance_float b1 (fl (2 / 10)) "Withdrawal") =
      some (1801439850948199 / 2 ^ 54)
    ∧ (1801439850948199 : ℚ) / 2 ^ 54 ≠ fl (1 / 10) := by
  have h1 : update_balance_float (fl (1 / 10)) (fl (2 / 10)) "Deposit" =
      some (1351079888211149 / 2 ^ 52) := by
    rw [update_balance_float, if_neg (by decide), if_pos rfl]
    rw [fl_tenth, fl_fifth, fl_sum]
  have h2 : update_balance_float (1351079888211149 / 2 ^ 52) (fl (2 / 10))
      "Withdrawal" = some (1801439850948199 / 2 ^ 54) := by
    rw [update_balance_float, if_pos rfl, fl_fifth]
    rw [if_neg (by norm_num), fl_diff]
  refine ⟨?_, ?_⟩
  · rw [h1]
    exact (Option.some_bind' _ _).trans h2
  · rw [fl_tenth]
    norm_num

end DashCash
